import Mathlib

/-!
Verification of the Reaper plugin pipeline core.

The development shallowly embeds the data model (`src/reaper/models.py`),
the keyword scoring plugin (`src/reaper/plugins/keyword_scorer/__init__.py`)
and the plugin registry / dispatch layer (`src/reaper/plugin_manager.py`,
which delegates registration and hook fan-out to the `pluggy` library;
pluggy's registration and multicall semantics are embedded explicitly).

Modelling conventions:
  - Python floats are modelled as rationals (the score arithmetic of the
    repository stays within exactly representable values at every claim
    instance considered here).
  - Python datetime values are modelled as naturals; the system clock is an
    explicit function from a read counter to a time, so that the number of
    clock reads is observable.
  - Python object identity is modelled by a numeric `pid` field; plugin
    registries compare plugins by `pid`, mirroring CPython `is` / default
    `==` on plain objects.
  - `raw_data` dictionaries are association lists of `Value`, a Python-like
    value domain closed under nesting.
-/

set_option autoImplicit false

namespace Reaper

/-- The SenseType enumeration of `src/reaper/models.py`. -/
inductive SenseType where
  | sight
  | hearing
  | touch
  | taste
  | smell
  | action
deriving DecidableEq, Repr

/-- Python values that appear in `raw_data` / `metadata` dictionaries:
strings, integers, booleans, None, lists and string-keyed dictionaries. -/
inductive Value where
  | vStr (s : String)
  | vInt (n : Int)
  | vBool (b : Bool)
  | vNone
  | vList (xs : List Value)
  | vDict (ps : List (String × Value))

/-- The Signal model of `src/reaper/models.py` (pydantic `Signal`). -/
structure Signal where
  sense_type : SenseType
  source : String
  timestamp : Nat
  raw_data : List (String × Value)
  metadata : List (String × Value)

/-- The ScoredSignal model of `src/reaper/models.py` (pydantic `ScoredSignal`). -/
structure ScoredSignal where
  signal : Signal
  score : ℚ
  analysis : List (String × Value)
  tags : List String

/-- Pydantic construction of a ScoredSignal: the `score` field is declared
`Field(..., ge=0.0, le=1.0)`, so construction validates the score and fails
(returns `none`) when it lies outside [0, 1]; it never clamps. -/
def ScoredSignal.make (signal : Signal) (score : ℚ)
    (analysis : List (String × Value)) (tags : List String) : Option ScoredSignal :=
  if 0 ≤ score ∧ score ≤ 1 then some ⟨signal, score, analysis, tags⟩ else none

/-- One record handed to `Signal.create_batch` (a dict with the signal fields
other than the timestamp). -/
structure SignalData where
  sense_type : SenseType
  source : String
  raw_data : List (String × Value)
  metadata : List (String × Value)

/-- `cls(**data, timestamp=ts)` for one batch record. -/
def Signal.ofData (d : SignalData) (ts : Nat) : Signal :=
  ⟨d.sense_type, d.source, ts, d.raw_data, d.metadata⟩

/-- `Signal.create_batch` of `src/reaper/models.py`:
`ts = shared_timestamp or datetime.now(timezone.utc)` followed by
`[cls(**data, timestamp=ts) for data in signals_data]`.
The clock is passed explicitly: `clock i` is the time returned by the
`i`-th `datetime.now` call of the process and `calls` counts the calls made
so far; the second component of the result is the updated call counter, so
the number of clock reads performed by `create_batch` is observable. -/
def Signal.create_batch (signals_data : List SignalData) (shared_timestamp : Option Nat)
    (clock : Nat → Nat) (calls : Nat) : List Signal × Nat :=
  match shared_timestamp with
  | some ts => (signals_data.map (fun d => Signal.ofData d ts), calls)
  | none =>
      let ts := clock calls
      (signals_data.map (fun d => Signal.ofData d ts), calls + 1)

/-! The keyword scoring plugin, `src/reaper/plugins/keyword_scorer/__init__.py`. -/

/-- ASCII lower-casing of one character (the repository's keywords and
texts are ASCII, where Python `str.lower` is exactly this map). -/
def lowerChar (c : Char) : Char :=
  if 65 ≤ c.toNat ∧ c.toNat ≤ 90 then Char.ofNat (c.toNat + 32) else c

/-- Python `s.lower()`. -/
def pyLower (s : String) : String :=
  ⟨s.data.map lowerChar⟩

/-- Python `sep.join(parts)`. -/
def pyJoin (sep : String) : List String → String
  | [] => ""
  | [x] => x
  | x :: y :: rest => x ++ sep ++ pyJoin sep (y :: rest)

/-- Python substring containment `needle in hay` on character lists. -/
def listContainsSub (needle : List Char) : List Char → Bool
  | [] => needle.isEmpty
  | c :: rest => needle.isPrefixOf (c :: rest) || listContainsSub needle rest

/-- Python `needle in hay` on strings. -/
def pyIn (needle hay : String) : Bool :=
  listContainsSub needle.toList hay.toList

mutual
/-- Python `str()` of a raw_data value (for containers Python uses the
`repr` of the elements, so strings gain single quotes and dict keys appear
quoted in the output). -/
def Value.pyStr : Value → String
  | .vStr s => "'" ++ s ++ "'"
  | .vInt n => toString n
  | .vBool true => "True"
  | .vBool false => "False"
  | .vNone => "None"
  | .vList xs => "[" ++ Value.pyStrList xs ++ "]"
  | .vDict ps => "\x7b" ++ Value.pyStrDict ps ++ "\x7d"

/-- Comma-separated rendering of a Python list body. -/
def Value.pyStrList : List Value → String
  | [] => ""
  | [x] => x.pyStr
  | x :: y :: rest => x.pyStr ++ ", " ++ Value.pyStrList (y :: rest)

/-- Comma-separated rendering of a Python dict body. -/
def Value.pyStrDict : List (String × Value) → String
  | [] => ""
  | [p] => "'" ++ p.1 ++ "': " ++ p.2.pyStr
  | p :: q :: rest => "'" ++ p.1 ++ "': " ++ p.2.pyStr ++ ", " ++ Value.pyStrDict (q :: rest)
end

/-- `KeywordScorerPlugin._extract_text_from_data`: walk the values of the
dict (keys are not visited); string values are lower-cased, list and dict
values are stringified with `str()` and lower-cased, every other value is
skipped; the parts are joined with a single space. -/
def extract_text_from_data (data : List (String × Value)) : String :=
  let text_parts := data.filterMap (fun p =>
    match p.2 with
    | .vStr s => some (pyLower s)
    | .vList xs => some (pyLower (Value.pyStr (.vList xs)))
    | .vDict ps => some (pyLower (Value.pyStr (.vDict ps)))
    | _ => none)
  pyJoin " " text_parts

/-- `KeywordScorerPlugin.HIGH_PRIORITY_KEYWORDS`. -/
def HIGH_PRIORITY_KEYWORDS : List String :=
  ["urgent", "critical", "blocker", "emergency", "broken"]

/-- `KeywordScorerPlugin.MEDIUM_PRIORITY_KEYWORDS`. -/
def MEDIUM_PRIORITY_KEYWORDS : List String :=
  ["bug", "issue", "problem", "error", "failure"]

/-- `KeywordScorerPlugin.LOW_PRIORITY_KEYWORDS`. -/
def LOW_PRIORITY_KEYWORDS : List String :=
  ["todo", "improvement", "enhancement", "minor", "question"]

/-- The keyword configuration held by a `KeywordScorerPlugin` instance. -/
structure KeywordScorer where
  high_priority : List String
  medium_priority : List String
  low_priority : List String

/-- Python `x or dflt` on an optional list argument: `None` and the empty
list are both falsy, so both fall back to the default. -/
def pyOrList (x : Option (List String)) (dflt : List String) : List String :=
  match x with
  | none => dflt
  | some ks => if ks.isEmpty then dflt else ks

/-- `KeywordScorerPlugin.__init__`. -/
def KeywordScorer.init (high_priority medium_priority low_priority : Option (List String)) :
    KeywordScorer :=
  { high_priority := pyOrList high_priority HIGH_PRIORITY_KEYWORDS,
    medium_priority := pyOrList medium_priority MEDIUM_PRIORITY_KEYWORDS,
    low_priority := pyOrList low_priority LOW_PRIORITY_KEYWORDS }

/-- `KeywordScorerPlugin._calculate_score`: filter each configured keyword
list by case-insensitive substring containment in the extracted text, sum
the weighted counts, cap at 1.0, and build the analysis dict. -/
def KeywordScorer.calculate_score (self : KeywordScorer) (signal : Signal) :
    ℚ × List (String × Value) :=
  let text := extract_text_from_data signal.raw_data
  let high_matches := self.high_priority.filter (fun kw => pyIn (pyLower kw) text)
  let medium_matches := self.medium_priority.filter (fun kw => pyIn (pyLower kw) text)
  let low_matches := self.low_priority.filter (fun kw => pyIn (pyLower kw) text)
  let score : ℚ :=
    0 + high_matches.length * (3 / 10) + medium_matches.length * (2 / 10)
      + low_matches.length * (1 / 10)
  let score := min score 1
  let analysis : List (String × Value) :=
    [("method", .vStr "keyword_matching"),
     ("high_priority_matches", .vList (high_matches.map .vStr)),
     ("medium_priority_matches", .vList (medium_matches.map .vStr)),
     ("low_priority_matches", .vList (low_matches.map .vStr)),
     ("total_matches", .vInt (high_matches.length + medium_matches.length + low_matches.length))]
  (score, analysis)

/-- The check `analysis["total_matches"] == 0` performed by
`reaper_score_signal` (Python `==` between the stored value and the int 0). -/
def analysisTotalIsZero (analysis : List (String × Value)) : Bool :=
  match analysis.lookup "total_matches" with
  | some (.vInt n) => n == 0
  | _ => false

/-- `KeywordScorerPlugin.reaper_score_signal`: compute score and analysis,
derive the priority tag from the score thresholds, append "no_keywords"
when the analysis reports zero matches, and build the ScoredSignal. -/
def KeywordScorer.reaper_score_signal (self : KeywordScorer) (signal : Signal) : ScoredSignal :=
  let sa := self.calculate_score signal
  let score := sa.1
  let analysis := sa.2
  let tags : List String :=
    if (7 : ℚ) / 10 ≤ score then ["high_priority"]
    else if (4 : ℚ) / 10 ≤ score then ["medium_priority"]
    else ["low_priority"]
  let tags := if analysisTotalIsZero analysis then tags ++ ["no_keywords"] else tags
  { signal := signal, score := score, analysis := analysis, tags := tags }

/-! The plugin registry and dispatcher: `src/reaper/plugin_manager.py`
together with the pluggy semantics it delegates to.

pluggy facts embedded below (stable across pluggy releases used by the
repository):
  - `PluginManager.register(plugin, name)` derives the registry key from the
    explicit name when given, otherwise from the object (instances have no
    `__name__`, so the key is `str(id(plugin))`, unique per live object);
    it raises `ValueError` when the key is already taken or the identical
    object is already registered; on success it scans the plugin for
    methods carrying the `HookimplMarker("reaper")` attribute and appends
    them to the per-hook implementation list. A method merely named like a
    hook but lacking the marker attribute is not collected.
  - `PluginManager.unregister(plugin)` fails (assert) when the plugin is not
    registered; otherwise it removes the plugin's registry entry and its
    hook implementations.
  - Hook calls (`_multicall`) iterate the hook's implementation list in
    reversed insertion order (LIFO: the most recently registered plugin is
    invoked first) and collect the non-None results in invocation order.

Only the `reaper_score_signal` hook is modelled; the six other hooks are
dispatched by identical code paths. -/

/-- The `reaper_score_signal` attribute of a plugin object: absent, a method
marked with `@hookimpl`, or a plain method of that name without the marker.
A hook implementation may return `none` (Python None, declining to score). -/
inductive ScoreHook where
  | absent
  | marked (f : Signal → Option ScoredSignal)
  | unmarked (f : Signal → Option ScoredSignal)

/-- A plugin object: `pid` models Python object identity. -/
structure Plugin where
  pid : Nat
  score_hook : ScoreHook

/-- A pluggy registry key: an explicit name, or the canonical name derived
from the object identity when no name is supplied. -/
inductive PKey where
  | named (s : String)
  | auto (pid : Nat)
deriving DecidableEq

/-- `name or get_canonical_name(plugin)` in pluggy's `register`. -/
def pkeyOf (plugin : Plugin) (name : Option String) : PKey :=
  match name with
  | some s => .named s
  | none => .auto plugin.pid

/-- The hook implementations pluggy collects from a plugin for
`reaper_score_signal`: exactly the marker-attributed method, if any. -/
def scoreImplsOf (plugin : Plugin) : List Plugin :=
  match plugin.score_hook with
  | .marked _ => [plugin]
  | _ => []

/-- Combined state of the facade and the wrapped pluggy manager:
`registered_plugins` is the facade's `_registered_plugins` list,
`name2plugin` is pluggy's key-to-plugin registry in insertion order, and
`score_impls` is pluggy's hook implementation list for
`reaper_score_signal` in insertion order. -/
structure PMState where
  registered_plugins : List (Plugin × Option String)
  name2plugin : List (PKey × Plugin)
  score_impls : List Plugin

/-- A freshly constructed `PluginManager`. -/
def PMState.empty : PMState := ⟨[], [], []⟩

/-- pluggy `PluginManager.register`: raise on a duplicate key or a
duplicate object, otherwise record the plugin and collect its marked hook
implementations. -/
def pluggy_register (st : PMState) (plugin : Plugin) (name : Option String) :
    Except String PMState :=
  let plugin_name := pkeyOf plugin name
  if st.name2plugin.any (fun q => q.1 == plugin_name) then
    .error "plugin name already registered"
  else if st.name2plugin.any (fun q => q.2.pid == plugin.pid) then
    .error "plugin already registered"
  else
    .ok { st with
      name2plugin := st.name2plugin ++ [(plugin_name, plugin)],
      score_impls := st.score_impls ++ scoreImplsOf plugin }

/-- `PluginManager.register_plugin` of `src/reaper/plugin_manager.py`:
delegate to pluggy (whose exception propagates), then append to the
facade's `_registered_plugins` list. -/
def register_plugin (st : PMState) (plugin : Plugin) (name : Option String) :
    Except String PMState :=
  match pluggy_register st plugin name with
  | .error e => .error e
  | .ok st1 => .ok { st1 with registered_plugins := st1.registered_plugins ++ [(plugin, name)] }

/-- pluggy `PluginManager.unregister`: fail when the plugin is not
registered, otherwise drop its registry entry and its hook
implementations. -/
def pluggy_unregister (st : PMState) (plugin : Plugin) : Except String PMState :=
  if st.name2plugin.any (fun q => q.2.pid == plugin.pid) then
    .ok { st with
      name2plugin := st.name2plugin.filter (fun q => q.2.pid != plugin.pid),
      score_impls := st.score_impls.filter (fun q => q.pid != plugin.pid) }
  else
    .error "plugin is not registered"

/-- `PluginManager.unregister_plugin`: delegate to pluggy, then rebuild the
facade list keeping the entries whose plugin differs from the argument. -/
def unregister_plugin (st : PMState) (plugin : Plugin) : Except String PMState :=
  match pluggy_unregister st plugin with
  | .error e => .error e
  | .ok st1 =>
      .ok { st1 with
        registered_plugins := st1.registered_plugins.filter (fun q => q.1.pid != plugin.pid) }

/-- pluggy `_multicall` for `self.pm.hook.reaper_score_signal(signal=...)`:
iterate the implementation list in reversed insertion order and collect the
non-None results in invocation order. -/
def hook_reaper_score_signal (st : PMState) (signal : Signal) : List ScoredSignal :=
  st.score_impls.reverse.filterMap (fun p =>
    match p.score_hook with
    | .marked f => f signal
    | _ => none)

/-- `PluginManager.score_signal`: the facade's comprehension
`[r for r in results if r is not None]` is the identity here, because
pluggy's multicall already dropped the None results. -/
def score_signal (st : PMState) (signal : Signal) : List ScoredSignal :=
  hook_reaper_score_signal st signal

/-- `PluginManager.list_plugins`: snapshot of the facade list. -/
def list_plugins (st : PMState) : List (Plugin × Option String) :=
  st.registered_plugins

/-- `PluginManager.plugin_count`: length of the facade list. -/
def plugin_count (st : PMState) : Nat :=
  st.registered_plugins.length

/-- Consistency of the two registries maintained by the facade: the pluggy
registry and the facade list track the same plugins in the same order, and
no plugin object occurs twice. This holds in every state reachable by
`register_plugin` / `unregister_plugin` from `PMState.empty`. -/
def PMState.WF (st : PMState) : Prop :=
  st.name2plugin.map (fun q => q.2.pid) = st.registered_plugins.map (fun q => q.1.pid) ∧
  (st.registered_plugins.map (fun q => q.1.pid)).Nodup

/-! Concrete fixtures used by witnesses and counterexamples. -/

/-- A KeywordScorerPlugin constructed with no arguments (all defaults). -/
def defaultScorer : KeywordScorer := KeywordScorer.init none none none

/-- A signal whose raw_data text is "URGENT CRITICAL BUG". -/
def sigUrgentCriticalBug : Signal :=
  ⟨.sight, "test", 0, [("text", .vStr "URGENT CRITICAL BUG")], []⟩

/-- A signal with empty raw_data. -/
def sigEmptyData : Signal := ⟨.sight, "test", 0, [], []⟩

/-- A signal whose text contains every default high-priority keyword. -/
def sigAllHigh : Signal :=
  ⟨.sight, "test", 0, [("text", .vStr "urgent critical blocker emergency broken")], []⟩

/-- A scorer configured with a duplicated high-priority keyword list. -/
def cfgDup : KeywordScorer := KeywordScorer.init (some ["urgent", "urgent"]) none none

/-- A signal whose raw_data text is just "urgent". -/
def sigUrgentText : Signal := ⟨.sight, "t", 0, [("t", .vStr "urgent")], []⟩

/-- A signal where "urgent" occurs only as a top-level raw_data key. -/
def sigTopKeyUrgent : Signal := ⟨.sight, "t", 0, [("urgent", .vInt 1)], []⟩

/-- A signal where "urgent" occurs as a key of a nested dict value. -/
def sigNestedKeyUrgent : Signal :=
  ⟨.sight, "t", 0, [("x", .vDict [("urgent", .vInt 1)])], []⟩

/-! Bridging lemmas between the scorer's definition and the quantities the
specification talks about. -/

/-- The entries of a keyword list matched against a signal's extracted text
(case-insensitive substring containment, as in `_calculate_score`). -/
def matchedIn (kws : List String) (sig : Signal) : List String :=
  kws.filter (fun kw => pyIn (pyLower kw) (extract_text_from_data sig.raw_data))

/-- Total number of keyword matches reported by the scorer's analysis. -/
def total_matches (ks : KeywordScorer) (sig : Signal) : Nat :=
  (matchedIn ks.high_priority sig).length + (matchedIn ks.medium_priority sig).length
    + (matchedIn ks.low_priority sig).length

theorem calculate_score_fst (ks : KeywordScorer) (sig : Signal) :
    (ks.calculate_score sig).1 =
      min (0 + (matchedIn ks.high_priority sig).length * (3 / 10 : ℚ)
        + (matchedIn ks.medium_priority sig).length * (2 / 10)
        + (matchedIn ks.low_priority sig).length * (1 / 10)) 1 := rfl

theorem reaper_score_signal_score (ks : KeywordScorer) (sig : Signal) :
    (ks.reaper_score_signal sig).score = (ks.calculate_score sig).1 := rfl

theorem analysisTotalIsZero_calculate_score (ks : KeywordScorer) (sig : Signal) :
    analysisTotalIsZero (ks.calculate_score sig).2 = (total_matches ks sig == 0) := by
  show ((total_matches ks sig : Int) == 0) = (total_matches ks sig == 0)
  simp [Int.ofNat_eq_zero]

theorem reaper_score_signal_tags (ks : KeywordScorer) (sig : Signal) :
    (ks.reaper_score_signal sig).tags =
      (if analysisTotalIsZero (ks.calculate_score sig).2 then
        (if (7 : ℚ) / 10 ≤ (ks.calculate_score sig).1 then ["high_priority"]
         else if (4 : ℚ) / 10 ≤ (ks.calculate_score sig).1 then ["medium_priority"]
         else ["low_priority"]) ++ ["no_keywords"]
       else
        (if (7 : ℚ) / 10 ≤ (ks.calculate_score sig).1 then ["high_priority"]
         else if (4 : ℚ) / 10 ≤ (ks.calculate_score sig).1 then ["medium_priority"]
         else ["low_priority"])) := rfl

/-! Claim C4. -/

/-- C4: constructing a ScoredSignal validates the score at construction
time: every score outside the closed interval [0, 1] is rejected (in
particular -0.1 and 1.1), every score inside it is accepted, and the
accepted value is stored unchanged - never clamped or coerced. -/
theorem scored_signal_score_validation (sig : Signal) (score : ℚ)
    (analysis : List (String × Value)) (tags : List String) :
    (score < 0 ∨ 1 < score → ScoredSignal.make sig score analysis tags = none) ∧
    (0 ≤ score → score ≤ 1 →
      ScoredSignal.make sig score analysis tags = some ⟨sig, score, analysis, tags⟩) := by
  refine ⟨fun h => ?_, fun h0 h1 => ?_⟩
  · have hn : ¬ (0 ≤ score ∧ score ≤ 1) := by
      rcases h with h | h <;> rintro ⟨hc0, hc1⟩ <;> linarith
    simp [ScoredSignal.make, hn]
  · simp [ScoredSignal.make, h0, h1]

/-- Witness for scored_signal_score_validation: -0.1 and 1.1 are rejected,
0.5 is accepted and stored unchanged. -/
theorem scored_signal_score_validation_witness :
    ScoredSignal.make sigEmptyData (-1 / 10) [] [] = none ∧
    ScoredSignal.make sigEmptyData (11 / 10) [] [] = none ∧
    ScoredSignal.make sigEmptyData (1 / 2) [] [] = some ⟨sigEmptyData, 1 / 2, [], []⟩ :=
  ⟨(scored_signal_score_validation sigEmptyData (-1 / 10) [] []).1 (.inl (by norm_num)),
   (scored_signal_score_validation sigEmptyData (11 / 10) [] []).1 (.inr (by norm_num)),
   (scored_signal_score_validation sigEmptyData (1 / 2) [] []).2 (by norm_num) (by norm_num)⟩

/-! Claim C3. -/

/-- C3: when no timestamp is supplied, create_batch reads the clock exactly
once (the call counter advances by one) and every signal of the returned
batch carries that one clock value, so all batch signals share one
identical timestamp. -/
theorem create_batch_single_clock_read (signals_data : List SignalData)
    (clock : Nat → Nat) (calls : Nat) :
    (Signal.create_batch signals_data none clock calls).2 = calls + 1 ∧
    (∀ s ∈ (Signal.create_batch signals_data none clock calls).1,
      s.timestamp = clock calls) ∧
    (∀ s1 ∈ (Signal.create_batch signals_data none clock calls).1,
     ∀ s2 ∈ (Signal.create_batch signals_data none clock calls).1,
      s1.timestamp = s2.timestamp) := by
  refine ⟨rfl, fun s hs => ?_, fun s1 h1 s2 h2 => ?_⟩
  · simp only [Signal.create_batch, List.mem_map] at hs
    obtain ⟨d, -, rfl⟩ := hs
    rfl
  · simp only [Signal.create_batch, List.mem_map] at h1 h2
    obtain ⟨d1, -, rfl⟩ := h1
    obtain ⟨d2, -, rfl⟩ := h2
    rfl

/-- A concrete batch of three records without timestamps. -/
def batchData : List SignalData :=
  [⟨.sight, "cam1", [], []⟩, ⟨.hearing, "mic", [], []⟩, ⟨.touch, "pad", [], []⟩]

/-- Witness for create_batch_single_clock_read on a concrete batch: one
clock call is made and the first and last signals share the timestamp. -/
theorem create_batch_single_clock_read_witness :
    (Signal.create_batch batchData none (fun i => 500 + i) 0).2 = 0 + 1 ∧
    (Signal.ofData ⟨.sight, "cam1", [], []⟩ 500).timestamp
      = (Signal.ofData ⟨.touch, "pad", [], []⟩ 500).timestamp :=
  ⟨(create_batch_single_clock_read batchData (fun i => 500 + i) 0).1,
   (create_batch_single_clock_read batchData (fun i => 500 + i) 0).2.2
     (Signal.ofData ⟨.sight, "cam1", [], []⟩ 500) (by simp [Signal.create_batch, batchData])
     (Signal.ofData ⟨.touch, "pad", [], []⟩ 500) (by simp [Signal.create_batch, batchData])⟩

/-! Claim C2. -/

/-- The scoring formula in the words of the specification: 0.3 per
distinct matched high-priority keyword, 0.2 per distinct medium, 0.1 per
distinct low, capped at 1.0 (spec section 4.4 and claim C2). -/
def specScore (ks : KeywordScorer) (sig : Signal) : ℚ :=
  min 1 ((3 / 10 : ℚ) * ((matchedIn ks.high_priority sig).dedup).length
    + (2 / 10) * ((matchedIn ks.medium_priority sig).dedup).length
    + (1 / 10) * ((matchedIn ks.low_priority sig).dedup).length)

theorem score_eq_entry_formula (ks : KeywordScorer) (sig : Signal) :
    (ks.reaper_score_signal sig).score =
      min 1 ((3 / 10 : ℚ) * (matchedIn ks.high_priority sig).length
        + (2 / 10) * (matchedIn ks.medium_priority sig).length
        + (1 / 10) * (matchedIn ks.low_priority sig).length) := by
  rw [reaper_score_signal_score, calculate_score_fst, min_comm]
  congr 1
  ring

/-- C2 (amended): the score equals min(1, 0.3 H + 0.2 M + 0.1 L) where H,
M, L count the *entries* of the configured keyword lists that match the
extracted text; whenever the configured lists are duplicate-free (as the
defaults are) this coincides with the distinct-matched-keyword formula of
the claim; the text "URGENT CRITICAL BUG" under default keywords scores
0.8, and any text matching every default high-priority keyword scores
exactly 1, never more. -/
theorem keyword_score_formula :
    (∀ (ks : KeywordScorer) (sig : Signal),
      (ks.reaper_score_signal sig).score =
        min 1 ((3 / 10 : ℚ) * (matchedIn ks.high_priority sig).length
          + (2 / 10) * (matchedIn ks.medium_priority sig).length
          + (1 / 10) * (matchedIn ks.low_priority sig).length)) ∧
    (∀ (ks : KeywordScorer) (sig : Signal),
      ks.high_priority.Nodup → ks.medium_priority.Nodup → ks.low_priority.Nodup →
      (ks.reaper_score_signal sig).score = specScore ks sig) ∧
    ((defaultScorer.reaper_score_signal sigUrgentCriticalBug).score = 4 / 5) ∧
    (∀ sig : Signal,
      (∀ kw ∈ HIGH_PRIORITY_KEYWORDS,
        pyIn (pyLower kw) (extract_text_from_data sig.raw_data) = true) →
      (defaultScorer.reaper_score_signal sig).score = 1) := by
  refine ⟨score_eq_entry_formula, fun ks sig h1 h2 h3 => ?_, ?_, fun sig h => ?_⟩
  · have d1 : (matchedIn ks.high_priority sig).dedup = matchedIn ks.high_priority sig :=
      List.dedup_eq_self.mpr (List.Nodup.filter _ h1)
    have d2 : (matchedIn ks.medium_priority sig).dedup = matchedIn ks.medium_priority sig :=
      List.dedup_eq_self.mpr (List.Nodup.filter _ h2)
    have d3 : (matchedIn ks.low_priority sig).dedup = matchedIn ks.low_priority sig :=
      List.dedup_eq_self.mpr (List.Nodup.filter _ h3)
    rw [score_eq_entry_formula, specScore, d1, d2, d3]
  · rw [score_eq_entry_formula]
    have e1 : matchedIn defaultScorer.high_priority sigUrgentCriticalBug
        = ["urgent", "critical"] := by decide
    have e2 : matchedIn defaultScorer.medium_priority sigUrgentCriticalBug = ["bug"] := by
      decide
    have e3 : matchedIn defaultScorer.low_priority sigUrgentCriticalBug = [] := by decide
    rw [e1, e2, e3]
    norm_num
  · rw [score_eq_entry_formula]
    have eh : matchedIn defaultScorer.high_priority sig = HIGH_PRIORITY_KEYWORDS := by
      exact List.filter_eq_self.mpr (fun kw hkw => h kw hkw)
    rw [eh]
    have hm : (0 : ℚ) ≤ (matchedIn defaultScorer.medium_priority sig).length :=
      Nat.cast_nonneg _
    have hl : (0 : ℚ) ≤ (matchedIn defaultScorer.low_priority sig).length :=
      Nat.cast_nonneg _
    have hlen : (HIGH_PRIORITY_KEYWORDS.length : ℚ) = 5 := by decide
    rw [min_eq_left]
    rw [hlen]
    linarith

/-- Witness for keyword_score_formula: the duplicate-free hypotheses hold
for the default lists, and the all-high-keywords hypothesis holds for a
concrete signal containing every default high-priority keyword. -/
theorem keyword_score_formula_witness :
    (defaultScorer.reaper_score_signal sigEmptyData).score = specScore defaultScorer sigEmptyData ∧
    (defaultScorer.reaper_score_signal sigAllHigh).score = 1 :=
  ⟨keyword_score_formula.2.1 defaultScorer sigEmptyData (by decide) (by decide) (by decide),
   keyword_score_formula.2.2.2 sigAllHigh (by decide)⟩

/-- C2 counterexample: quantified over every keyword configuration, the
distinct-matched-keyword formula is false. A scorer configured with the
high-priority list ["urgent", "urgent"] scores the text "urgent" at 0.6
(one 0.3 per matched list entry), while min(1, 0.3 x distinct matched)
gives 0.3. -/
theorem keyword_score_distinct_cex :
    (cfgDup.reaper_score_signal sigUrgentText).score = 6 / 10 ∧
    specScore cfgDup sigUrgentText = 3 / 10 ∧
    (cfgDup.reaper_score_signal sigUrgentText).score ≠ specScore cfgDup sigUrgentText := by
  have e1 : matchedIn cfgDup.high_priority sigUrgentText = ["urgent", "urgent"] := by decide
  have e2 : matchedIn cfgDup.medium_priority sigUrgentText = [] := by decide
  have e3 : matchedIn cfgDup.low_priority sigUrgentText = [] := by decide
  have hs : (cfgDup.reaper_score_signal sigUrgentText).score = 6 / 10 := by
    rw [score_eq_entry_formula, e1, e2, e3]
    norm_num
  have hd : specScore cfgDup sigUrgentText = 3 / 10 := by
    rw [specScore, e1, e2, e3]
    norm_num
  exact ⟨hs, hd, by rw [hs, hd]; norm_num⟩

/-! Claim C9. -/

theorem score_zero_of_no_matches (ks : KeywordScorer) (sig : Signal)
    (h : total_matches ks sig = 0) : (ks.calculate_score sig).1 = 0 := by
  rw [calculate_score_fst]
  obtain ⟨h1, h2, h3⟩ : (matchedIn ks.high_priority sig).length = 0 ∧
      (matchedIn ks.medium_priority sig).length = 0 ∧
      (matchedIn ks.low_priority sig).length = 0 := by
    simp only [total_matches] at h
    omega
  rw [h1, h2, h3]
  norm_num

/-- C9: the tags of a keyword-scored signal contain "high_priority" iff
score >= 0.7, "medium_priority" iff 0.4 <= score < 0.7, "low_priority" iff
score < 0.4, always exactly one of the three; and they contain
"no_keywords" iff the total number of keyword matches is zero, in which
case the score is 0 and "low_priority" co-occurs. -/
theorem keyword_tags_spec (ks : KeywordScorer) (sig : Signal) :
    ("high_priority" ∈ (ks.reaper_score_signal sig).tags ↔
        (7 : ℚ) / 10 ≤ (ks.reaper_score_signal sig).score) ∧
    ("medium_priority" ∈ (ks.reaper_score_signal sig).tags ↔
        ((4 : ℚ) / 10 ≤ (ks.reaper_score_signal sig).score ∧
          (ks.reaper_score_signal sig).score < 7 / 10)) ∧
    ("low_priority" ∈ (ks.reaper_score_signal sig).tags ↔
        (ks.reaper_score_signal sig).score < 4 / 10) ∧
    ((ks.reaper_score_signal sig).tags.countP
        (fun t => t == "high_priority" || t == "medium_priority" || t == "low_priority") = 1) ∧
    ("no_keywords" ∈ (ks.reaper_score_signal sig).tags ↔ total_matches ks sig = 0) ∧
    (total_matches ks sig = 0 →
      (ks.reaper_score_signal sig).score = 0 ∧
        "low_priority" ∈ (ks.reaper_score_signal sig).tags) := by
  rw [reaper_score_signal_tags ks sig, reaper_score_signal_score ks sig,
    analysisTotalIsZero_calculate_score ks sig]
  by_cases h0 : total_matches ks sig = 0
  · have hz : (ks.calculate_score sig).1 = 0 := score_zero_of_no_matches ks sig h0
    rw [hz]
    have c7 : ¬ ((7 : ℚ) / 10 ≤ 0) := by norm_num
    have c4 : ¬ ((4 : ℚ) / 10 ≤ 0) := by norm_num
    simp only [h0, beq_self_eq_true, if_true, if_neg c7, if_neg c4]
    refine ⟨by simp, ?_, by norm_num, by decide, by simp, fun _ => ⟨trivial, by simp⟩⟩
    constructor
    · intro hmem
      simp at hmem
    · rintro ⟨hc, -⟩
      exact absurd hc c4
  · have hb : (total_matches ks sig == 0) = false := by
      simp [h0]
    rw [hb]
    simp only [Bool.false_eq_true, if_false]
    by_cases h7 : (7 : ℚ) / 10 ≤ (ks.calculate_score sig).1
    · simp only [if_pos h7]
      refine ⟨by simp [h7], ?_, ?_, by decide, by simp [h0], fun h => absurd h h0⟩
      · constructor
        · intro hmem
          simp at hmem
        · rintro ⟨-, hlt⟩
          linarith
      · constructor
        · intro hmem
          simp at hmem
        · intro hlt
          linarith
    · rw [if_neg h7]
      by_cases h4 : (4 : ℚ) / 10 ≤ (ks.calculate_score sig).1
      · simp only [if_pos h4]
        refine ⟨?_, by simp [h4, lt_of_not_le h7], ?_, by decide, by simp [h0],
          fun h => absurd h h0⟩
        · constructor
          · intro hmem
            simp at hmem
          · intro hge
            exact absurd hge h7
        · constructor
          · intro hmem
            simp at hmem
          · intro hlt
            linarith
      · rw [if_neg h4]
        refine ⟨?_, ?_, by simp [lt_of_not_le h4], by decide, by simp [h0],
          fun h => absurd h h0⟩
        · constructor
          · intro hmem
            simp at hmem
          · intro hge
            have : (4 : ℚ) / 10 ≤ (ks.calculate_score sig).1 := by linarith
            exact absurd this h4
        · constructor
          · intro hmem
            simp at hmem
          · rintro ⟨hc, -⟩
            exact absurd hc h4

/-- Witness for keyword_tags_spec: a signal with empty raw_data has zero
matches, hence score 0 and the "low_priority" tag. -/
theorem keyword_tags_spec_witness :
    (defaultScorer.reaper_score_signal sigEmptyData).score = 0 ∧
    "low_priority" ∈ (defaultScorer.reaper_score_signal sigEmptyData).tags :=
  (keyword_tags_spec defaultScorer sigEmptyData).2.2.2.2.2 (by decide)

/-! Claim C10. -/

/-- C10: in the scorer's text extraction, top-level raw_data keys and
non-string scalar values (ints, booleans, None) contribute nothing to the
matching text, while keys inside nested dict values do contribute: a
keyword occurring only as a top-level key never matches (score 0, zero
matches), but the same keyword as a key of a nested dict value matches
(here scoring 0.3). -/
theorem text_extraction_keys_and_scalars :
    (∀ (data : List (String × Value)) (k : String) (n : Int),
      extract_text_from_data (data ++ [(k, .vInt n)]) = extract_text_from_data data) ∧
    (∀ (data : List (String × Value)) (k : String) (b : Bool),
      extract_text_from_data (data ++ [(k, .vBool b)]) = extract_text_from_data data) ∧
    (∀ (data : List (String × Value)) (k : String),
      extract_text_from_data (data ++ [(k, .vNone)]) = extract_text_from_data data) ∧
    (∀ (data : List (String × Value)) (f : String → String),
      extract_text_from_data (data.map (fun p => (f p.1, p.2)))
        = extract_text_from_data data) ∧
    (total_matches defaultScorer sigTopKeyUrgent = 0 ∧
      (defaultScorer.reaper_score_signal sigTopKeyUrgent).score = 0) ∧
    (matchedIn defaultScorer.high_priority sigNestedKeyUrgent = ["urgent"] ∧
      (defaultScorer.reaper_score_signal sigNestedKeyUrgent).score = 3 / 10) := by
  refine ⟨?_, ?_, ?_, ?_, ⟨by decide, ?_⟩, ⟨by decide, ?_⟩⟩
  · intro data k n
    simp [extract_text_from_data, List.filterMap_append]
  · intro data k b
    cases b <;> simp [extract_text_from_data, List.filterMap_append]
  · intro data k
    simp [extract_text_from_data, List.filterMap_append]
  · intro data f
    simp only [extract_text_from_data, List.filterMap_map]
    rfl
  · rw [score_eq_entry_formula]
    have e1 : matchedIn defaultScorer.high_priority sigTopKeyUrgent = [] := by decide
    have e2 : matchedIn defaultScorer.medium_priority sigTopKeyUrgent = [] := by decide
    have e3 : matchedIn defaultScorer.low_priority sigTopKeyUrgent = [] := by decide
    rw [e1, e2, e3]
    norm_num
  · rw [score_eq_entry_formula]
    have e1 : matchedIn defaultScorer.high_priority sigNestedKeyUrgent = ["urgent"] := by
      decide
    have e2 : matchedIn defaultScorer.medium_priority sigNestedKeyUrgent = [] := by decide
    have e3 : matchedIn defaultScorer.low_priority sigNestedKeyUrgent = [] := by decide
    rw [e1, e2, e3]
    norm_num

/-! Inversion lemmas for the registration operations. -/

theorem register_plugin_ok_iff (st : PMState) (p : Plugin) (n : Option String)
    (st1 : PMState) :
    register_plugin st p n = .ok st1 ↔
      st.name2plugin.any (fun q => q.1 == pkeyOf p n) = false ∧
      st.name2plugin.any (fun q => q.2.pid == p.pid) = false ∧
      st1 = { registered_plugins := st.registered_plugins ++ [(p, n)],
              name2plugin := st.name2plugin ++ [(pkeyOf p n, p)],
              score_impls := st.score_impls ++ scoreImplsOf p } := by
  unfold register_plugin pluggy_register
  rcases hA : st.name2plugin.any (fun q => q.1 == pkeyOf p n) <;>
    rcases hB : st.name2plugin.any (fun q => q.2.pid == p.pid) <;>
      simp [hA, hB, eq_comm]

theorem unregister_plugin_ok (st : PMState) (p : Plugin)
    (h : st.name2plugin.any (fun q => q.2.pid == p.pid) = true) :
    unregister_plugin st p = .ok
      { registered_plugins := st.registered_plugins.filter (fun q => q.1.pid != p.pid),
        name2plugin := st.name2plugin.filter (fun q => q.2.pid != p.pid),
        score_impls := st.score_impls.filter (fun q => q.pid != p.pid) } := by
  unfold unregister_plugin pluggy_unregister
  simp [h]

theorem unregister_plugin_missing (st : PMState) (p : Plugin)
    (h : st.name2plugin.any (fun q => q.2.pid == p.pid) = false) :
    unregister_plugin st p = .error "plugin is not registered" := by
  unfold unregister_plugin pluggy_unregister
  simp [h]

/-! Claim C6. -/

/-- A plugin object with no hook implementations. -/
def plainPlugin (n : Nat) : Plugin := ⟨n, .absent⟩

/-- C6: registering the identical plugin object (by identity) a second time
fails with an error, never silently ignores or replaces; registering two
distinct instances succeeds and both appear, in order, in listPlugins. -/
theorem register_identity_conflict :
    (∀ (st st1 : PMState) (p : Plugin) (n1 n2 : Option String),
      register_plugin st p n1 = .ok st1 →
      ∃ e, register_plugin st1 p n2 = .error e) ∧
    (∀ p q : Plugin, p.pid ≠ q.pid →
      ∃ st1 st2 : PMState,
        register_plugin PMState.empty p none = .ok st1 ∧
        register_plugin st1 q none = .ok st2 ∧
        list_plugins st2 = [(p, none), (q, none)]) := by
  constructor
  · intro st st1 p n1 n2 h
    obtain ⟨-, -, hst1⟩ := (register_plugin_ok_iff st p n1 st1).mp h
    have hid : st1.name2plugin.any (fun q => q.2.pid == p.pid) = true := by
      rw [hst1]
      simp
    by_cases hn : st1.name2plugin.any (fun q => q.1 == pkeyOf p n2) = true
    · exact ⟨"plugin name already registered", by
        unfold register_plugin pluggy_register
        simp [hn]⟩
    · have hn' : st1.name2plugin.any (fun q => q.1 == pkeyOf p n2) = false := by
        rw [Bool.eq_false_iff]
        exact hn
      exact ⟨"plugin already registered", by
        unfold register_plugin pluggy_register
        simp [hn', hid]⟩
  · intro p q hpq
    refine ⟨⟨[(p, none)], [(.auto p.pid, p)], scoreImplsOf p⟩,
      ⟨[(p, none), (q, none)], [(.auto p.pid, p), (.auto q.pid, q)],
        scoreImplsOf p ++ scoreImplsOf q⟩, ?_, ?_, rfl⟩
    · rw [register_plugin_ok_iff]
      exact ⟨rfl, rfl, rfl⟩
    · rw [register_plugin_ok_iff]
      refine ⟨?_, ?_, rfl⟩
      · simp only [pkeyOf, List.any_cons, List.any_nil, Bool.or_false,
          beq_eq_false_iff_ne, ne_eq, PKey.auto.injEq]
        exact hpq
      · simp only [List.any_cons, List.any_nil, Bool.or_false, beq_eq_false_iff_ne, ne_eq]
        exact hpq

/-- Witness for register_identity_conflict: a concrete double registration
of one object fails, and two distinct objects register fine. -/
theorem register_identity_conflict_witness :
    (∃ e, register_plugin
      ⟨[(plainPlugin 0, none)], [(.auto 0, plainPlugin 0)], []⟩
      (plainPlugin 0) none = .error e) ∧
    (∃ st1 st2 : PMState,
      register_plugin PMState.empty (plainPlugin 0) none = .ok st1 ∧
      register_plugin st1 (plainPlugin 1) none = .ok st2 ∧
      list_plugins st2 = [(plainPlugin 0, none), (plainPlugin 1, none)]) :=
  ⟨register_identity_conflict.1 PMState.empty
      ⟨[(plainPlugin 0, none)], [(.auto 0, plainPlugin 0)], []⟩
      (plainPlugin 0) none none rfl,
   register_identity_conflict.2 (plainPlugin 0) (plainPlugin 1) (by decide)⟩

/-! Claim C7. -/

theorem length_filter_ne_of_nodup {α : Type} (f : α → Nat) (a : Nat) :
    ∀ l : List α, (l.map f).Nodup → a ∈ l.map f →
      (l.filter (fun x => f x != a)).length + 1 = l.length := by
  intro l
  induction l with
  | nil => simp
  | cons x xs ih =>
    intro hnd hmem
    simp only [List.map_cons, List.nodup_cons] at hnd
    by_cases hx : f x = a
    · have hrest : xs.filter (fun y => f y != a) = xs := by
        refine List.filter_eq_self.mpr (fun y hy => ?_)
        have : f y ≠ a := by
          intro hya
          have hmemy : f y ∈ xs.map f := List.mem_map_of_mem f hy
          refine hnd.1 ?_
          rw [hx, ← hya]
          exact hmemy
        simpa using this
      simp [List.filter_cons, hx, hrest]
    · have hmem' : a ∈ xs.map f := by
        rcases List.mem_cons.mp hmem with h | h
        · exact absurd h.symm hx
        · exact h
      have := ih hnd.2 hmem'
      have hxb : (f x != a) = true := by simpa using hx
      simp only [List.filter_cons, hxb, if_true, List.length_cons]
      omega

/-- C7: unregistering a plugin that is not registered fails with an error,
never a silent no-op; unregistering a registered plugin succeeds, removes
exactly one entry, and pluginCount decreases by exactly one. Holds in
every well-formed manager state (the invariant maintained by
register/unregister from a fresh manager). -/
theorem unregister_spec (st : PMState) (p : Plugin) (hwf : st.WF) :
    (p.pid ∉ st.registered_plugins.map (fun q => q.1.pid) →
      unregister_plugin st p = .error "plugin is not registered") ∧
    (p.pid ∈ st.registered_plugins.map (fun q => q.1.pid) →
      ∃ st1, unregister_plugin st p = .ok st1 ∧ plugin_count st1 + 1 = plugin_count st) := by
  have hmem_iff : (st.name2plugin.any (fun q => q.2.pid == p.pid) = true) ↔
      p.pid ∈ st.registered_plugins.map (fun q => q.1.pid) := by
    rw [← hwf.1]
    constructor
    · intro h
      obtain ⟨q, hq, hbeq⟩ := List.any_eq_true.mp h
      exact List.mem_map.mpr ⟨q, hq, beq_iff_eq.mp hbeq⟩
    · intro h
      obtain ⟨q, hq, hpid⟩ := List.mem_map.mp h
      exact List.any_eq_true.mpr ⟨q, hq, beq_iff_eq.mpr hpid⟩
  constructor
  · intro hnm
    refine unregister_plugin_missing st p ?_
    rw [Bool.eq_false_iff]
    exact fun ht => hnm (hmem_iff.mp ht)
  · intro hm
    refine ⟨_, unregister_plugin_ok st p (hmem_iff.mpr hm), ?_⟩
    show (st.registered_plugins.filter (fun q => q.1.pid != p.pid)).length + 1
      = st.registered_plugins.length
    exact length_filter_ne_of_nodup (fun q => q.1.pid) p.pid
      st.registered_plugins hwf.2 hm

/-- Witness for unregister_spec on a concrete one-plugin manager:
unregistering an unknown plugin errors, unregistering the registered one
drops the count from 1 to 0. -/
theorem unregister_spec_witness :
    unregister_plugin ⟨[(plainPlugin 0, none)], [(.auto 0, plainPlugin 0)], []⟩
      (plainPlugin 1) = .error "plugin is not registered" ∧
    (∃ st1, unregister_plugin ⟨[(plainPlugin 0, none)], [(.auto 0, plainPlugin 0)], []⟩
      (plainPlugin 0) = .ok st1 ∧ plugin_count st1 + 1 = 1) :=
  ⟨(unregister_spec ⟨[(plainPlugin 0, none)], [(.auto 0, plainPlugin 0)], []⟩
      (plainPlugin 1) ⟨rfl, by decide⟩).1 (by decide),
   (unregister_spec ⟨[(plainPlugin 0, none)], [(.auto 0, plainPlugin 0)], []⟩
      (plainPlugin 0) ⟨rfl, by decide⟩).2 (by decide)⟩

/-! Claim C8. -/

/-- C8 (amended): explicit plugin names must be unique - registering a
second plugin under an already-used name fails; apart from that the name
is cosmetic: it has no effect on which plugins dispatch invokes or on the
dispatch results. -/
theorem plugin_name_spec :
    (∀ (st st1 : PMState) (p q : Plugin) (s : String),
      register_plugin st p (some s) = .ok st1 →
      ∃ e, register_plugin st1 q (some s) = .error e) ∧
    (∀ (st st1 st2 : PMState) (p : Plugin) (n1 n2 : Option String) (sig : Signal),
      register_plugin st p n1 = .ok st1 → register_plugin st p n2 = .ok st2 →
      score_signal st1 sig = score_signal st2 sig) := by
  constructor
  · intro st st1 p q s h
    obtain ⟨-, -, hst1⟩ := (register_plugin_ok_iff st p (some s) st1).mp h
    refine ⟨"plugin name already registered", ?_⟩
    have hn : st1.name2plugin.any (fun r => r.1 == pkeyOf q (some s)) = true := by
      rw [hst1]
      simp [pkeyOf]
    unfold register_plugin pluggy_register
    simp [hn]
  · intro st st1 st2 p n1 n2 sig h1 h2
    obtain ⟨-, -, hst1⟩ := (register_plugin_ok_iff st p n1 st1).mp h1
    obtain ⟨-, -, hst2⟩ := (register_plugin_ok_iff st p n2 st2).mp h2
    rw [hst1, hst2]
    rfl

/-- C8 counterexample: the claim says names need not be unique; in fact
registering a second, distinct plugin instance under the same explicit
name "dup" is rejected by pluggy with a name conflict. -/
theorem plugin_name_unique_cex :
    ∃ st1, register_plugin PMState.empty (plainPlugin 0) (some "dup") = .ok st1 ∧
      register_plugin st1 (plainPlugin 1) (some "dup")
        = .error "plugin name already registered" :=
  ⟨⟨[(plainPlugin 0, some "dup")], [(.named "dup", plainPlugin 0)], []⟩, rfl, rfl⟩

/-- Witness for plugin_name_spec at concrete plugins: same-name
registration errors, and the same plugin registered under two different
names yields the same dispatch result. -/
theorem plugin_name_spec_witness :
    (∃ e, register_plugin
        ⟨[(plainPlugin 0, some "x")], [(.named "x", plainPlugin 0)], []⟩
        (plainPlugin 1) (some "x") = .error e) ∧
    score_signal ⟨[(plainPlugin 0, some "a")], [(.named "a", plainPlugin 0)], []⟩
        sigEmptyData
      = score_signal ⟨[(plainPlugin 0, some "b")], [(.named "b", plainPlugin 0)], []⟩
        sigEmptyData :=
  ⟨plugin_name_spec.1 PMState.empty
      ⟨[(plainPlugin 0, some "x")], [(.named "x", plainPlugin 0)], []⟩
      (plainPlugin 0) (plainPlugin 1) "x" rfl,
   plugin_name_spec.2 PMState.empty
      ⟨[(plainPlugin 0, some "a")], [(.named "a", plainPlugin 0)], []⟩
      ⟨[(plainPlugin 0, some "b")], [(.named "b", plainPlugin 0)], []⟩
      (plainPlugin 0) (some "a") (some "b") sigEmptyData rfl rfl⟩

/-! Claim C5. -/

/-- C5: a plugin whose reaper_score_signal method lacks the hookimpl
marker is not an implementer: dispatch never invokes it and never errors
because of it - registering such a plugin leaves every score dispatch
result exactly as it was. -/
theorem unmarked_hook_skipped (st st1 : PMState) (p : Plugin) (n : Option String)
    (f : Signal → Option ScoredSignal) (hm : p.score_hook = .unmarked f)
    (h : register_plugin st p n = .ok st1) (sig : Signal) :
    score_signal st1 sig = score_signal st sig := by
  obtain ⟨-, -, hst1⟩ := (register_plugin_ok_iff st p n st1).mp h
  have himpls : scoreImplsOf p = [] := by
    unfold scoreImplsOf
    rw [hm]
  rw [hst1]
  unfold score_signal hook_reaper_score_signal
  rw [himpls]
  simp

/-- A plugin with an unmarked reaper_score_signal method. -/
def unmarkedPlugin : Plugin := ⟨7, .unmarked (fun _ => none)⟩

/-- Witness for unmarked_hook_skipped: registering the unmarked plugin
into a fresh manager leaves score dispatch results unchanged (empty). -/
theorem unmarked_hook_skipped_witness :
    score_signal ⟨[(unmarkedPlugin, none)], [(.auto 7, unmarkedPlugin)], []⟩ sigEmptyData
      = score_signal PMState.empty sigEmptyData :=
  unmarked_hook_skipped PMState.empty
    ⟨[(unmarkedPlugin, none)], [(.auto 7, unmarkedPlugin)], []⟩
    unmarkedPlugin none (fun _ => none) rfl rfl sigEmptyData

/-! Claim C1. -/

/-- C1 (amended): within one dispatch call the invoked plugins run in the
*reverse* of registration order (pluggy invokes hook implementations in
LIFO order), deterministically: registering scorer A then scorer B, the
score dispatch returns B's result first and A's second (each dropped if
None). -/
theorem dispatch_reverse_registration_order (A B : Plugin)
    (f g : Signal → Option ScoredSignal) (nA nB : Option String)
    (stA stAB : PMState) (sig : Signal)
    (hA : register_plugin PMState.empty A nA = .ok stA)
    (hB : register_plugin stA B nB = .ok stAB)
    (hfA : A.score_hook = .marked f) (hgB : B.score_hook = .marked g) :
    score_signal stAB sig = [g sig, f sig].filterMap id := by
  obtain ⟨-, -, hstA⟩ := (register_plugin_ok_iff PMState.empty A nA stA).mp hA
  obtain ⟨-, -, hstAB⟩ := (register_plugin_ok_iff stA B nB stAB).mp hB
  have hiA : scoreImplsOf A = [A] := by
    unfold scoreImplsOf
    rw [hfA]
  have hiB : scoreImplsOf B = [B] := by
    unfold scoreImplsOf
    rw [hgB]
  have himpls : stAB.score_impls = [A, B] := by
    rw [hstAB, hstA, hiA, hiB]
    rfl
  unfold score_signal hook_reaper_score_signal
  rw [himpls]
  simp only [List.reverse_cons, List.reverse_nil, List.nil_append, List.cons_append,
    List.filterMap_cons, hfA, hgB]
  rcases g sig <;> rcases f sig <;> simp

/-- A deterministic scoring result used by the dispatch-order plugins. -/
def taggedOut (sig : Signal) (t : String) : ScoredSignal := ⟨sig, 1 / 2, [], [t]⟩

/-- A scorer plugin returning a result tagged "A". -/
def scorerA : Plugin := ⟨10, .marked (fun sig => some (taggedOut sig "A"))⟩

/-- A scorer plugin returning a result tagged "B". -/
def scorerB : Plugin := ⟨11, .marked (fun sig => some (taggedOut sig "B"))⟩

/-- C1 counterexample: register scorer A then scorer B; score dispatch
returns the two results with B's first and A's second - not in
registration order as the claim states (the two results differ, so the
order is observable). -/
theorem dispatch_order_cex :
    ∃ stA stAB : PMState,
      register_plugin PMState.empty scorerA none = .ok stA ∧
      register_plugin stA scorerB none = .ok stAB ∧
      score_signal stAB sigEmptyData
        = [taggedOut sigEmptyData "B", taggedOut sigEmptyData "A"] ∧
      taggedOut sigEmptyData "B" ≠ taggedOut sigEmptyData "A" := by
  refine ⟨⟨[(scorerA, none)], [(.auto 10, scorerA)], [scorerA]⟩,
    ⟨[(scorerA, none), (scorerB, none)], [(.auto 10, scorerA), (.auto 11, scorerB)],
      [scorerA, scorerB]⟩, rfl, rfl, rfl, ?_⟩
  intro h
  have htags := congrArg ScoredSignal.tags h
  simp [taggedOut] at htags

/-- Witness for dispatch_reverse_registration_order at the concrete
scorers A and B. -/
theorem dispatch_reverse_registration_order_witness :
    score_signal ⟨[(scorerA, none), (scorerB, none)],
        [(.auto 10, scorerA), (.auto 11, scorerB)], [scorerA, scorerB]⟩ sigEmptyData
      = [(fun sig => some (taggedOut sig "B")) sigEmptyData,
         (fun sig => some (taggedOut sig "A")) sigEmptyData].filterMap id :=
  dispatch_reverse_registration_order scorerA scorerB
    (fun sig => some (taggedOut sig "A")) (fun sig => some (taggedOut sig "B"))
    none none
    ⟨[(scorerA, none)], [(.auto 10, scorerA)], [scorerA]⟩
    ⟨[(scorerA, none), (scorerB, none)], [(.auto 10, scorerA), (.auto 11, scorerB)],
      [scorerA, scorerB]⟩
    sigEmptyData rfl rfl rfl rfl

end Reaper
